import Mathlib

/-!
# Waveshare relay hub: verification of the relay communication engine

A shallow embedding, in Lean 4, of the relay communication engine of the
`waveshare_relay` repository (`hub.py` and `coordinator.py`), together with
theorems settling the specification claims about it.

Conventions of the embedding:

* Python `bytes` values are modelled as `List Nat`, each element the value of
  one byte (`0 ≤ b < 256` on every reachable value).
* Wall-clock instants (`time.time()`) are modelled as natural numbers
  (seconds); only comparisons of time differences against thresholds matter
  to the embedded code.
* Fallible operations return `Option`; a Python `None` result is `none`.
* Stateful objects (`ConnectionManager`, the coordinator, the hub's
  availability fields) are modelled by explicit state records and state
  passing.
-/

set_option maxRecDepth 100000

namespace WaveshareRelay

/-! ## Protocol codec (`WaveshareRelayHub.calculate_crc`, `_send_relay_states`,
`read_relay_status`) -/

/-- One bit-iteration of the CRC-16/MODBUS inner loop:
`crc = (crc >> 1) ^ 0xA001 if crc & 0x0001 else crc >> 1`. -/
def crcBitStep (crc : Nat) : Nat :=
  if crc % 2 = 1 then (crc / 2) ^^^ 0xA001 else crc / 2

/-- Folding one input byte into the running CRC: `crc ^= byte` followed by
eight `crcBitStep` iterations. -/
def crcByteStep (crc byte : Nat) : Nat :=
  Nat.iterate crcBitStep 8 (crc ^^^ byte)

/-- The 16-bit CRC word of `WaveshareRelayHub.calculate_crc`: seed `0xFFFF`,
then fold every data byte through `crcByteStep`. -/
def calculate_crc_word (data : List Nat) : Nat :=
  data.foldl crcByteStep 0xFFFF

/-- `WaveshareRelayHub.calculate_crc`: the CRC word serialized as two bytes,
little-endian (`crc.to_bytes(2, byteorder='little')`). -/
def calculate_crc (data : List Nat) : List Nat :=
  let crc := calculate_crc_word data
  [crc % 256, crc / 256 % 256]

/-- The bit pattern of `_send_relay_states`:
`sum((1 << i) for i, relay_state in enumerate(self._relay_states) if relay_state)`. -/
def bit_pattern (relay_states : List Bool) : Nat :=
  relay_states.enum.foldl (fun acc p => if p.2 then acc + 2 ^ p.1 else acc) 0

/-- Python `int.to_bytes(length)` with the default byte order, which is
**big**-endian: most significant byte first.  This is what
`bit_pattern.to_bytes(self._byte_size)` executes, despite the adjacent
source comment announcing little-endian order. -/
def int_to_bytes_big (n len : Nat) : List Nat :=
  (List.range len).map (fun i => n / 256 ^ (len - 1 - i) % 256)

/-- Little-endian serialization of an integer into `len` bytes: least
significant byte first. -/
def int_to_bytes_little (n len : Nat) : List Nat :=
  (List.range len).map (fun i => n / 256 ^ i % 256)

/-- The byte size computed in `WaveshareRelayHub.__init__`:
`(num_relays + 7) // 8`. -/
def byte_size (num_relays : Nat) : Nat :=
  (num_relays + 7) / 8

/-- The full write-command frame built by `_send_relay_states`:
`[addr, 0x0F, 0, 0, 0, num_relays, byte_size] + bit_pattern_bytes + crc`,
with the pattern bytes produced by `bit_pattern.to_bytes(self._byte_size)`
(big-endian, the Python default). -/
def send_relay_states_frame (device_address num_relays : Nat)
    (relay_states : List Bool) : List Nat :=
  let bs := byte_size num_relays
  let cmd := [device_address, 0x0F, 0x00, 0x00, 0x00, num_relays, bs] ++
    int_to_bytes_big (bit_pattern relay_states) bs
  cmd ++ calculate_crc cmd

/-- The write-command frame as the specification describes it: identical to
`send_relay_states_frame` except that the bit-pattern bytes are serialized
little-endian ("bitPatternBytes little-endian", spec §6). -/
def claimed_write_frame (device_address num_relays : Nat)
    (relay_states : List Bool) : List Nat :=
  let bs := byte_size num_relays
  let cmd := [device_address, 0x0F, 0x00, 0x00, 0x00, num_relays, bs] ++
    int_to_bytes_little (bit_pattern relay_states) bs
  cmd ++ calculate_crc cmd

/-- The eight bits of one response byte, most significant first, as produced
by `f"{byte:08b}"` for a byte value `< 256`. -/
def byte_bits_msb (b : Nat) : List Bool :=
  (List.range 8).map (fun i => decide (b / 2 ^ (7 - i) % 2 = 1))

/-- The pure decoding part of `WaveshareRelayHub.read_relay_status`, applied
to an already-received response: fail (`None`) when
`len(response) < 5 + (num_relays + 7) // 8`; otherwise take
`response[3:-2]`, concatenate the bits of those bytes most significant bit
first, reverse the whole bit string, and keep the first `num_relays` bits. -/
def read_relay_status_decode (num_relays : Nat) (response : List Nat) :
    Option (List Bool) :=
  if response.length < 5 + (num_relays + 7) / 8 then none
  else
    let status_bytes := (response.drop 3).dropLast.dropLast
    let full_binary := ((status_bytes.map byte_bits_msb).flatten).reverse
    some (full_binary.take num_relays)

/-! ## Connection manager (`ConnectionManager` in `hub.py`)

`send_command_with_retry` is modelled as a state transformer over the
manager's mutable fields, parametrised by the behaviour of the transport:
for each attempt index, the TCP exchange either raises (timeout, refused,
any I/O error — all re-raised as `ConnectionError` by
`_send_command_single`) or returns the bytes read, possibly the empty
string (`reader.read` returning `b''` does not raise).  A single wall-clock
instant `now` stands for the `time.time()` reads within one call. -/

/-- `RetryConfig`: only `max_attempts` influences control flow (delays and
jitter shape timing, not results). -/
structure RetryConfig where
  max_attempts : Nat := 3

/-- `CircuitBreakerConfig` (timeout in seconds, as a natural number). -/
structure CircuitBreakerConfig where
  failure_threshold : Nat := 5
  recovery_timeout : Nat := 30
  half_open_max_calls : Nat := 3

/-- The mutable fields of `ConnectionManager`. -/
structure CMState where
  failure_count : Nat
  last_failure_time : Nat
  circuit_breaker_open : Bool
  half_open_calls : Nat
deriving DecidableEq, Repr

/-- The field values set by `ConnectionManager.__init__`. -/
def initCMState : CMState :=
  { failure_count := 0, last_failure_time := 0,
    circuit_breaker_open := false, half_open_calls := 0 }

/-- Outcome of one `_send_command_single` attempt. -/
inductive AttemptResult where
  /-- The TCP exchange completed and `reader.read(1024)` returned these
  bytes (possibly none). -/
  | ok (response : List Nat)
  /-- The attempt raised (`ConnectionError` wrapping a timeout, a refused
  connection, or any other I/O failure). -/
  | exn
deriving DecidableEq, Repr

/-- `ConnectionManager._is_circuit_breaker_open`: returns whether the
breaker blocks the call, closing it first when the recovery timeout has
elapsed since the last failure (without touching `_failure_count`). -/
def is_circuit_breaker_open_check (cfg : CircuitBreakerConfig) (now : Nat)
    (st : CMState) : Bool × CMState :=
  if st.circuit_breaker_open = false then (false, st)
  else if cfg.recovery_timeout < now - st.last_failure_time then
    (false, { st with circuit_breaker_open := false, half_open_calls := 0 })
  else (true, st)

/-- `ConnectionManager._record_success`: zero the failure count and close
the breaker if it was open. -/
def record_success (st : CMState) : CMState :=
  let st := { st with failure_count := 0 }
  if st.circuit_breaker_open then { st with circuit_breaker_open := false }
  else st

/-- `ConnectionManager._record_failure`: bump the failure count, stamp the
failure time, open the breaker once the count reaches the threshold. -/
def record_failure (cfg : CircuitBreakerConfig) (now : Nat) (st : CMState) :
    CMState :=
  let st := { st with failure_count := st.failure_count + 1,
                      last_failure_time := now }
  if cfg.failure_threshold ≤ st.failure_count then
    { st with circuit_breaker_open := true }
  else st

/-- The `for attempt in range(max_attempts)` loop of
`send_command_with_retry`, started at attempt index `i` with `rem` attempts
remaining.  Returns the response of the first non-raising attempt (returned
immediately, whatever its contents) and the number of attempts performed. -/
def retryLoop (transport : Nat → AttemptResult) :
    Nat → Nat → Option (List Nat) × Nat
  | _, 0 => (none, 0)
  | i, rem + 1 =>
    match transport i with
    | .ok r => (some r, 1)
    | .exn =>
      let rest := retryLoop transport (i + 1) rem
      (rest.1, rest.2 + 1)

/-- The value and effects of one `send_command_with_retry` call. -/
structure SendResult where
  response : Option (List Nat)
  /-- How many `_send_command_single` attempts ran, i.e. how many times a
  socket open was attempted. -/
  attempts_used : Nat
  state : CMState
deriving DecidableEq, Repr

/-- `ConnectionManager.send_command_with_retry`: fail fast (no attempt, no
I/O) when the breaker blocks the call; otherwise run the retry loop, record
success on any returned response, record a failure after exhausting all
attempts. -/
def send_command_with_retry (rcfg : RetryConfig) (cfg : CircuitBreakerConfig)
    (now : Nat) (transport : Nat → AttemptResult) (st : CMState) :
    SendResult :=
  let check := is_circuit_breaker_open_check cfg now st
  if check.1 then ⟨none, 0, check.2⟩
  else
    let run := retryLoop transport 0 rcfg.max_attempts
    match run.1 with
    | some r => ⟨some r, run.2, record_success check.2⟩
    | none => ⟨none, run.2, record_failure cfg now check.2⟩

/-- The `circuit_breaker_open` entry of `WaveshareRelayHub.connection_stats`
(read by the diagnostics layer as `connection_info`). -/
def connection_stats_circuit_breaker_open (st : CMState) : Bool :=
  st.circuit_breaker_open

/-! ## Persistence (`_save_last_states` / `_load_last_states`)

The JSON state file is an object whose keys are the relay numbers rendered
as strings (`str(relay_num)`) and whose values are booleans.  `_load_last_states`
converts each key back with `int(relay_num)`; since Python's `int ∘ str` is
the identity on naturals, the embedding carries the numeric key through
`save_last_states`/`load_last_states` and exposes the string rendering of
the stored file separately as `save_last_states_file`. -/

/-- `WaveshareRelayHub._save_last_states`: serialize only configured relays
whose number lies in `[1, num_relays]`, keyed by relay number, valued by the
current vector entry.  `configured` lists the members of
`self._configured_relays`. -/
def save_last_states (configured : List Nat) (num_relays : Nat)
    (states : List Bool) : List (Nat × Bool) :=
  (configured.filter (fun r => decide (1 ≤ r) && decide (r ≤ num_relays))).map
    (fun r => (r, states.getD (r - 1) false))

/-- The JSON object written to disk: the same entries with the key rendered
as a string, as `json.dump` receives it. -/
def save_last_states_file (configured : List Nat) (num_relays : Nat)
    (states : List Bool) : List (String × Bool) :=
  (save_last_states configured num_relays states).map
    (fun p => (toString p.1, p.2))

/-- One iteration of the `for relay_num, state in saved_states.items()` loop
of `_load_last_states`: apply the entry only when its relay number is
configured and within `[1, num_relays]`. -/
def apply_saved_state (configured : List Nat) (num_relays : Nat)
    (states : List Bool) (entry : Nat × Bool) : List Bool :=
  if entry.1 ∈ configured ∧ 1 ≤ entry.1 ∧ entry.1 ≤ num_relays then
    states.set (entry.1 - 1) entry.2
  else states

/-- `WaveshareRelayHub._load_last_states` applied to a parsed state file:
fold every saved entry over the current vector. -/
def load_last_states (configured : List Nat) (num_relays : Nat)
    (saved : List (Nat × Bool)) (states : List Bool) : List Bool :=
  saved.foldl (apply_saved_state configured num_relays) states

/-! ## `WaveshareRelayHub.set_relay_state`

Modelled as a function of the hub's configuration, the current vector, and
the behaviour `net` of `send_command` (frame ↦ optional response, `none`
when all transport attempts failed).  It returns the outcome together with
the effects: the new vector, what was persisted (when a state file is
configured), and the frames transmitted. -/

/-- Outcome of `set_relay_state`: the two `ValueError` validation failures,
or completion with the boolean `response is not None`. -/
inductive SetRelayOutcome where
  | outOfRange
  | notConfigured
  | ok (success : Bool)
deriving DecidableEq, Repr

/-- Observable effects of one `set_relay_state` call. -/
structure SetRelayEffects where
  relay_states : List Bool
  /-- `some entries` when `_save_last_states` wrote the state file. -/
  saved : Option (List (Nat × Bool))
  /-- Command frames handed to `send_command`. -/
  frames_sent : List (List Nat)
deriving DecidableEq, Repr

/-- `WaveshareRelayHub.set_relay_state`: validate, then (under the lock)
mutate the vector, save it, build and send the full-vector write frame, and
report `response is not None`. -/
def set_relay_state (device_address num_relays : Nat) (configured : List Nat)
    (persist : Bool) (net : List Nat → Option (List Nat))
    (states : List Bool) (relay_number : Nat) (state : Bool) :
    SetRelayOutcome × SetRelayEffects :=
  if relay_number < 1 ∨ num_relays < relay_number then
    (.outOfRange, ⟨states, none, []⟩)
  else if relay_number ∉ configured then
    (.notConfigured, ⟨states, none, []⟩)
  else
    let states' := states.set (relay_number - 1) state
    let frame := send_relay_states_frame device_address num_relays states'
    let response := net frame
    (.ok response.isSome,
     ⟨states',
      if persist then some (save_last_states configured num_relays states')
      else none,
      [frame]⟩)

/-! ## Availability (`WaveshareRelayHub.is_available`) -/

/-- The hub fields read by `is_available`. -/
structure AvailState where
  is_available_flag : Bool
  last_successful_communication : Nat
deriving DecidableEq, Repr

/-- The values set by `WaveshareRelayHub.__init__`:
`self._last_successful_communication = 0`, `self._is_available = True`. -/
def initAvailState : AvailState :=
  { is_available_flag := true, last_successful_communication := 0 }

/-- `WaveshareRelayHub.is_available`:
`self._is_available and (time.time() - self._last_successful_communication < 300)`. -/
def is_available (now : Nat) (st : AvailState) : Bool :=
  st.is_available_flag &&
    decide (now - st.last_successful_communication < 300)

/-! ## Polling coordinator (`WaveshareRelayCoordinator` in `coordinator.py`) -/

/-- The coordinator's backoff fields (`_consecutive_failures`,
`_current_poll_interval`). -/
structure CoordState where
  consecutive_failures : Nat
  current_poll_interval : Nat
deriving DecidableEq, Repr

/-- The values set by `WaveshareRelayCoordinator.__init__` for a base poll
interval. -/
def initCoordState (poll_interval : Nat) : CoordState :=
  { consecutive_failures := 0, current_poll_interval := poll_interval }

/-- `WaveshareRelayCoordinator._handle_failure`: bump the counter, and once
it reaches `_max_consecutive_failures` set the interval to
`min(base * 2 ** (failures - threshold), 300)`. -/
def handle_failure (base threshold : Nat) (st : CoordState) : CoordState :=
  let cf := st.consecutive_failures + 1
  if threshold ≤ cf then
    { consecutive_failures := cf,
      current_poll_interval := min (base * 2 ^ (cf - threshold)) 300 }
  else
    { st with consecutive_failures := cf }

/-- How one refresh attempt went, from the point of view of
`_async_update_data`. -/
inductive RefreshOutcome where
  /-- `self.hub.is_available` was false. -/
  | hubUnavailable
  /-- `read_relay_status` returned `None`. -/
  | readFailed
  /-- `read_relay_status` raised. -/
  | readRaised
  /-- `read_relay_status` returned a state vector. -/
  | readOk (states : List Bool)
deriving DecidableEq, Repr

/-- `WaveshareRelayCoordinator._async_update_data` as a transition on the
backoff fields, returning the new state and whether the refresh succeeded.
On the unavailable and `None`-read paths `_handle_failure` runs **twice**:
once before `raise UpdateFailed(...)`, and once more in the
`except Exception` handler that catches that same `UpdateFailed`.  When the
read itself raises, only the `except` handler runs it. -/
def async_update_data (base threshold : Nat) (st : CoordState)
    (o : RefreshOutcome) : CoordState × Bool :=
  match o with
  | .hubUnavailable =>
    (handle_failure base threshold (handle_failure base threshold st), false)
  | .readFailed =>
    (handle_failure base threshold (handle_failure base threshold st), false)
  | .readRaised =>
    (handle_failure base threshold st, false)
  | .readOk _ =>
    ({ consecutive_failures := 0, current_poll_interval := base }, true)

/-! ## Theorems about the protocol codec -/

/-- C1.  The claim states that the bit pattern is serialized "as exactly
byteSize bytes in little-endian order".  The source comment in
`_send_relay_states` says the same, but `bit_pattern.to_bytes(self._byte_size)`
uses Python's default byte order, which is big-endian.  At the failing input
(device address 1, 32 relays, relay 1 on) the code transmits pattern bytes
`00 00 00 01` where the claimed frame carries `01 00 00 00`; the two frames
differ. -/
theorem C1_write_frame_pattern_bytes_are_big_endian :
    send_relay_states_frame 1 32 (true :: List.replicate 31 false) =
      [0x01, 0x0F, 0x00, 0x00, 0x00, 32, 4, 0x00, 0x00, 0x00, 0x01, 5, 72] ∧
    claimed_write_frame 1 32 (true :: List.replicate 31 false) =
      [0x01, 0x0F, 0x00, 0x00, 0x00, 32, 4, 0x01, 0x00, 0x00, 0x00, 197, 116] ∧
    send_relay_states_frame 1 32 (true :: List.replicate 31 false) ≠
      claimed_write_frame 1 32 (true :: List.replicate 31 false) := by
  refine ⟨by decide, by decide, by decide⟩

/-- C2.  `read_relay_status` decoding: fails exactly when the response is
shorter than `5 + byte_size`; otherwise drops the 3-byte header and 2-byte
CRC, concatenates the status bytes' bits most significant bit first,
reverses the entire bit string and keeps the first `num_relays` bits; and
a single status byte `0x05` with 8 relays decodes to exactly relays 1 and 3
on. -/
theorem C2_read_status_decode (num_relays : Nat) (response : List Nat) :
    (response.length < 5 + byte_size num_relays →
      read_relay_status_decode num_relays response = none) ∧
    (5 + byte_size num_relays ≤ response.length →
      read_relay_status_decode num_relays response =
        some (((((response.drop 3).dropLast.dropLast).map
          byte_bits_msb).flatten).reverse.take num_relays)) ∧
    read_relay_status_decode 8 [0x01, 0x01, 0x01, 0x05, 0x91, 0x8B] =
      some [true, false, true, false, false, false, false, false] := by
  refine ⟨fun h => ?_, fun h => ?_, by decide⟩
  · simp only [read_relay_status_decode, byte_size] at h ⊢
    rw [if_pos h]
  · simp only [read_relay_status_decode, byte_size] at h ⊢
    rw [if_neg (by omega)]

/-- Witness for C2 at concrete inputs: a 2-byte response is rejected, and a
6-byte response decodes through the strip/concatenate/reverse/take pipeline. -/
theorem C2_read_status_decode_witness :
    read_relay_status_decode 8 [0x01, 0x81] = none ∧
    read_relay_status_decode 8 [0x01, 0x01, 0x01, 0x05, 0x91, 0x8B] =
      some ((((([0x01, 0x01, 0x01, 0x05, 0x91, 0x8B].drop 3).dropLast.dropLast).map
        byte_bits_msb).flatten).reverse.take 8) :=
  ⟨(C2_read_status_decode 8 [0x01, 0x81]).1 (by decide),
   (C2_read_status_decode 8 [0x01, 0x01, 0x01, 0x05, 0x91, 0x8B]).2.1 (by decide)⟩

/-! ## Validation, write-then-send, availability -/

/-- C4.  `set_relay_state` with a relay number outside `[1, num_relays]`
fails with the out-of-range `ValueError`, and with an in-range but
unconfigured number fails with the not-configured `ValueError`; in both
cases the vector is unchanged, nothing is persisted, and no frame is built
or transmitted. -/
theorem C4_set_relay_validation (addr num : Nat) (conf : List Nat)
    (persist : Bool) (net : List Nat → Option (List Nat)) (states : List Bool)
    (n : Nat) (v : Bool) :
    (n < 1 ∨ num < n →
      set_relay_state addr num conf persist net states n v =
        (.outOfRange, ⟨states, none, []⟩)) ∧
    (1 ≤ n → n ≤ num → n ∉ conf →
      set_relay_state addr num conf persist net states n v =
        (.notConfigured, ⟨states, none, []⟩)) := by
  constructor
  · intro h
    simp only [set_relay_state]
    rw [if_pos h]
  · intro h1 h2 h3
    simp only [set_relay_state]
    rw [if_neg (by omega), if_pos h3]

/-- Witness for C4: with 8 relays and configured set `{1, 2}`, relay 0 and
relay 9 are out of range, relay 5 is not configured; all three calls leave
the all-off vector untouched and transmit nothing. -/
theorem C4_set_relay_validation_witness :
    set_relay_state 1 8 [1, 2] true (fun _ => some [0x01])
        (List.replicate 8 false) 0 true =
      (.outOfRange, ⟨List.replicate 8 false, none, []⟩) ∧
    set_relay_state 1 8 [1, 2] true (fun _ => some [0x01])
        (List.replicate 8 false) 9 true =
      (.outOfRange, ⟨List.replicate 8 false, none, []⟩) ∧
    set_relay_state 1 8 [1, 2] true (fun _ => some [0x01])
        (List.replicate 8 false) 5 true =
      (.notConfigured, ⟨List.replicate 8 false, none, []⟩) :=
  ⟨(C4_set_relay_validation 1 8 [1, 2] true (fun _ => some [0x01])
      (List.replicate 8 false) 0 true).1 (Or.inl (by decide)),
   (C4_set_relay_validation 1 8 [1, 2] true (fun _ => some [0x01])
      (List.replicate 8 false) 9 true).1 (Or.inr (by decide)),
   (C4_set_relay_validation 1 8 [1, 2] true (fun _ => some [0x01])
      (List.replicate 8 false) 5 true).2 (by decide) (by decide) (by decide)⟩

/-- C5.  For a configured, in-range relay, when transmission fails
(`send_command` yields `None`) the call reports failure (`ok false`) while
the vector has already been mutated to the requested value at index `n - 1`
and that mutated vector was persisted: write-then-send ordering. -/
theorem C5_set_relay_write_then_send (addr num : Nat) (conf : List Nat)
    (states : List Bool) (n : Nat) (v : Bool)
    (net : List Nat → Option (List Nat))
    (h1 : 1 ≤ n) (h2 : n ≤ num) (h3 : n ∈ conf)
    (hlen : states.length = num)
    (hfail : net (send_relay_states_frame addr num (states.set (n - 1) v)) =
      none) :
    set_relay_state addr num conf true net states n v =
      (.ok false,
       ⟨states.set (n - 1) v,
        some (save_last_states conf num (states.set (n - 1) v)),
        [send_relay_states_frame addr num (states.set (n - 1) v)]⟩) ∧
    (states.set (n - 1) v).getD (n - 1) false = v := by
  constructor
  · simp only [set_relay_state]
    rw [if_neg (by omega), if_neg (by simp [h3])]
    simp [hfail]
  · have hn : n - 1 < states.length := by omega
    simp [List.getD_eq_getElem?_getD, List.getElem?_set_self hn]

/-- Witness for C5: relay 2 of 8, configured `{1, 2}`, dead transport: the
call fails but the vector holds `true` at index 1 and was persisted. -/
theorem C5_set_relay_write_then_send_witness :
    set_relay_state 1 8 [1, 2] true (fun _ => none)
        (List.replicate 8 false) 2 true =
      (.ok false,
       ⟨(List.replicate 8 false).set 1 true,
        some (save_last_states [1, 2] 8 ((List.replicate 8 false).set 1 true)),
        [send_relay_states_frame 1 8 ((List.replicate 8 false).set 1 true)]⟩) ∧
    ((List.replicate 8 false).set 1 true).getD 1 false = true :=
  C5_set_relay_write_then_send 1 8 [1, 2] (List.replicate 8 false) 2 true
    (fun _ => none) (by decide) (by decide) (by decide) (by decide) rfl

/-- C10.  `is_available` is true only when the last successful communication
is strictly less than 300 seconds old; a freshly constructed hub (flag true,
last-success timestamp 0) is unavailable once the wall clock is at least
300; and any hub whose last success is 300 or more seconds old is
unavailable regardless of the flag. -/
theorem C10_is_available_freshness (now : Nat) (st : AvailState) :
    (is_available now st = true →
      now - st.last_successful_communication < 300) ∧
    (300 ≤ now → is_available now initAvailState = false) ∧
    (st.last_successful_communication + 300 ≤ now →
      is_available now st = false) := by
  refine ⟨fun h => ?_, fun h => ?_, fun h => ?_⟩
  · simp only [is_available, Bool.and_eq_true, decide_eq_true_eq] at h
    exact h.2
  · simp only [is_available, initAvailState, Bool.true_and]
    simp only [decide_eq_false_iff_not]
    omega
  · have : ¬ (now - st.last_successful_communication < 300) := by omega
    simp [is_available, this]

/-- Witness for C10: at time 100 a fresh hub is available and the theorem
bounds its staleness; at time 400 a fresh hub is unavailable; at time 900 a
hub whose last success was at 600 is unavailable despite its flag. -/
theorem C10_is_available_freshness_witness :
    ((100 : Nat) - (initAvailState).last_successful_communication < 300) ∧
    is_available 400 initAvailState = false ∧
    is_available 900 ⟨true, 600⟩ = false :=
  ⟨(C10_is_available_freshness 100 initAvailState).1 (by decide),
   (C10_is_available_freshness 400 initAvailState).2.1 (by decide),
   (C10_is_available_freshness 900 ⟨true, 600⟩).2.2 (by decide)⟩

/-! ## Circuit breaker close paths (C7) -/

/-- C7 counterexample.  Run five exhausting sends at time 0 from the initial
manager state: the breaker is open with failure count 5.  A breaker check at
time 31 (recovery timeout 30 elapsed) transitions it to closed — yet the
failure count is still 5, not 0, refuting the claim that every transition to
Closed resets the count. -/
theorem C7_timeout_close_keeps_failure_count_counterexample :
    (send_command_with_retry {} {} 0 (fun _ => .exn)
      ((send_command_with_retry {} {} 0 (fun _ => .exn)
        ((send_command_with_retry {} {} 0 (fun _ => .exn)
          ((send_command_with_retry {} {} 0 (fun _ => .exn)
            ((send_command_with_retry {} {} 0 (fun _ => .exn)
              initCMState).state)).state)).state)).state)).state =
      ⟨5, 0, true, 0⟩ ∧
    (is_circuit_breaker_open_check {} 31 ⟨5, 0, true, 0⟩).1 = false ∧
    (is_circuit_breaker_open_check {} 31 ⟨5, 0, true, 0⟩).2.circuit_breaker_open
      = false ∧
    (is_circuit_breaker_open_check {} 31 ⟨5, 0, true, 0⟩).2.failure_count = 5 := by
  refine ⟨by decide, by decide, by decide, by decide⟩

/-- C7 as amended: the failure count resets to 0 exactly when the breaker
closes through `_record_success`; when `_is_circuit_breaker_open` closes it
because the recovery timeout elapsed, the failure count is preserved
unchanged (so a breaker that just closed by timeout still carries its
pre-close failure count, and a single further failure re-opens it). -/
theorem C7_close_paths (st : CMState) (cfg : CircuitBreakerConfig)
    (now : Nat) :
    (record_success st).failure_count = 0 ∧
    (record_success st).circuit_breaker_open = false ∧
    (is_circuit_breaker_open_check cfg now st).2.failure_count =
      st.failure_count := by
  refine ⟨?_, ?_, ?_⟩
  · simp only [record_success]
    split <;> rfl
  · simp only [record_success]
    split
    · rfl
    · next h => simpa using h
  · simp only [is_circuit_breaker_open_check]
    split
    · rfl
    · split <;> rfl

/-! ## Coordinator backoff (C9) -/

/-- C9 counterexample.  From a fresh coordinator (counter 0), one failed
refresh on the hub-unavailable path leaves the counter at 2, not 1:
`_handle_failure` runs both before `raise UpdateFailed` and again in the
`except Exception` handler that catches it. -/
theorem C9_double_failure_count_counterexample :
    (async_update_data 30 3 (initCoordState 30) .hubUnavailable).1.consecutive_failures
      = 2 ∧
    (async_update_data 30 3 (initCoordState 30) .hubUnavailable).1.consecutive_failures
      ≠ 0 + 1 := by
  refine ⟨by decide, by decide⟩

/-- C9 as amended: a failed refresh on the hub-unavailable or `None`-read
path raises the counter by 2 (the raise path plus the generic exception
handler), and by 1 when the read itself raises; after any failed refresh,
whenever the counter has reached the threshold the interval equals
`min(base * 2 ^ (counter - threshold), 300)` and otherwise it is unchanged;
a successful refresh resets the counter to 0 and the interval to the base
interval. -/
theorem C9_backoff (base threshold : Nat) (st : CoordState) :
    ((async_update_data base threshold st .hubUnavailable).1.consecutive_failures
      = st.consecutive_failures + 2) ∧
    ((async_update_data base threshold st .readFailed).1.consecutive_failures
      = st.consecutive_failures + 2) ∧
    ((async_update_data base threshold st .readRaised).1.consecutive_failures
      = st.consecutive_failures + 1) ∧
    (∀ o : RefreshOutcome, (async_update_data base threshold st o).2 = false →
      (threshold ≤ (async_update_data base threshold st o).1.consecutive_failures →
        (async_update_data base threshold st o).1.current_poll_interval =
          min (base * 2 ^
            ((async_update_data base threshold st o).1.consecutive_failures
              - threshold)) 300) ∧
      ((async_update_data base threshold st o).1.consecutive_failures < threshold →
        (async_update_data base threshold st o).1.current_poll_interval =
          st.current_poll_interval)) ∧
    (∀ s, async_update_data base threshold st (.readOk s) =
      ({ consecutive_failures := 0, current_poll_interval := base }, true)) := by
  have hcf : ∀ s : CoordState,
      (handle_failure base threshold s).consecutive_failures =
        s.consecutive_failures + 1 := by
    intro s
    simp only [handle_failure]
    split <;> rfl
  have hge : ∀ s : CoordState,
      threshold ≤ s.consecutive_failures + 1 →
      (handle_failure base threshold s).current_poll_interval =
        min (base * 2 ^ (s.consecutive_failures + 1 - threshold)) 300 := by
    intro s h
    simp only [handle_failure]
    rw [if_pos h]
  have hlt : ∀ s : CoordState,
      s.consecutive_failures + 1 < threshold →
      (handle_failure base threshold s).current_poll_interval =
        s.current_poll_interval := by
    intro s h
    simp only [handle_failure]
    rw [if_neg (by omega)]
  refine ⟨?_, ?_, ?_, ?_, fun s => rfl⟩
  · simp only [async_update_data, hcf]
  · simp only [async_update_data, hcf]
  · simp only [async_update_data, hcf]
  · intro o hfail
    cases o with
    | hubUnavailable =>
      simp only [async_update_data, hcf]
      constructor
      · intro hth
        rw [hge _ (by simp only [hcf]; omega)]
        simp only [hcf]
      · intro hth
        rw [hlt _ (by simp only [hcf]; omega), hlt _ (by omega)]
    | readFailed =>
      simp only [async_update_data, hcf]
      constructor
      · intro hth
        rw [hge _ (by simp only [hcf]; omega)]
        simp only [hcf]
      · intro hth
        rw [hlt _ (by simp only [hcf]; omega), hlt _ (by omega)]
    | readRaised =>
      simp only [async_update_data, hcf]
      constructor
      · intro hth
        exact hge _ (by omega)
      · intro hth
        exact hlt _ (by omega)
    | readOk s => exact absurd hfail (by simp [async_update_data])

/-- Witness for C9's amended statement: base 30, threshold 3, a coordinator
already at 3 consecutive failures: one unavailable refresh moves the
counter to 5 and the interval to `min(30 * 2^2, 300) = 120`; a successful
refresh resets to `(0, 30)`. -/
theorem C9_backoff_witness :
    (async_update_data 30 3 ⟨3, 30⟩ .hubUnavailable).1.consecutive_failures = 5 ∧
    (async_update_data 30 3 ⟨3, 30⟩ .hubUnavailable).1.current_poll_interval = 120 ∧
    async_update_data 30 3 ⟨3, 30⟩ (.readOk []) = (⟨0, 30⟩, true) := by
  have h := C9_backoff 30 3 ⟨3, 30⟩
  refine ⟨h.1, ?_, h.2.2.2.2 []⟩
  have h2 := (h.2.2.2.1 .hubUnavailable (by decide)).1
  rw [h.1] at h2
  simpa using h2 (by decide)

/-! ## Retry and circuit-breaker behaviour (C3, C6) -/

/-- A first attempt that returns bytes — any bytes, the empty read
included — ends the retry loop at once. -/
lemma retryLoop_first_ok (transport : Nat → AttemptResult) (i rem : Nat)
    (r : List Nat) (hok : transport i = .ok r) (hrem : 1 ≤ rem) :
    retryLoop transport i rem = (some r, 1) := by
  cases rem with
  | zero => omega
  | succ m => simp [retryLoop, hok]

/-- When every attempt raises, the loop exhausts all remaining attempts and
yields nothing. -/
lemma retryLoop_all_exn (transport : Nat → AttemptResult)
    (hexn : ∀ j, transport j = .exn) :
    ∀ rem i, retryLoop transport i rem = (none, rem) := by
  intro rem
  induction rem with
  | zero => intro i; rfl
  | succ m ih =>
    intro i
    simp [retryLoop, hexn i, ih (i + 1)]

/-- A send through a closed breaker whose first attempt returns bytes
records a success and stops after one attempt. -/
lemma send_closed_first_ok (rcfg : RetryConfig) (cfg : CircuitBreakerConfig)
    (now : Nat) (transport : Nat → AttemptResult) (st : CMState)
    (r : List Nat) (hclosed : st.circuit_breaker_open = false)
    (hok : transport 0 = .ok r) (hmax : 1 ≤ rcfg.max_attempts) :
    send_command_with_retry rcfg cfg now transport st =
      ⟨some r, 1, record_success st⟩ := by
  simp only [send_command_with_retry, is_circuit_breaker_open_check, hclosed]
  simp [retryLoop_first_ok transport 0 rcfg.max_attempts r hok hmax]

/-- A send through a closed breaker whose every attempt raises exhausts the
whole retry budget and records one failure. -/
lemma send_closed_all_exn (rcfg : RetryConfig) (cfg : CircuitBreakerConfig)
    (now : Nat) (transport : Nat → AttemptResult) (st : CMState)
    (hclosed : st.circuit_breaker_open = false)
    (hexn : ∀ j, transport j = .exn) :
    send_command_with_retry rcfg cfg now transport st =
      ⟨none, rcfg.max_attempts, record_failure cfg now st⟩ := by
  simp only [send_command_with_retry, is_circuit_breaker_open_check, hclosed]
  simp [retryLoop_all_exn transport hexn rcfg.max_attempts 0]

/-- C3 counterexample.  With a transport whose read always returns zero
bytes, `send_command_with_retry` stops after a single attempt (the retry
budget is 3), returns the empty response as a success, and records no
failure; consequently `set_relay_state` reports success though every read
was empty — refuting the claim that an empty read is a retryable failure
and that success requires a non-empty response. -/
theorem C3_empty_read_counterexample :
    send_command_with_retry {} {} 0 (fun _ => .ok []) initCMState =
      ⟨some [], 1, initCMState⟩ ∧
    ({} : RetryConfig).max_attempts = 3 ∧
    (set_relay_state 1 8 [1] true (fun _ => some [])
      (List.replicate 8 false) 1 true).1 = .ok true := by
  refine ⟨by decide, by decide, by decide⟩

/-- C3 as amended: an attempt whose read completes — even with zero
bytes — is a success: it is returned immediately (one attempt used) and
resets the failure count; only attempts that raise are retried, and the
call fails only when all `max_attempts` attempts raised; `set_relay_state`
reports success exactly when `send_command` returned a response, empty or
not. -/
theorem C3_empty_read_is_success (rcfg : RetryConfig)
    (cfg : CircuitBreakerConfig) (now : Nat)
    (transport : Nat → AttemptResult) (st : CMState) (r : List Nat)
    (addr num : Nat) (conf : List Nat) (persist : Bool)
    (net : List Nat → Option (List Nat)) (states : List Bool) (n : Nat)
    (v : Bool) :
    (st.circuit_breaker_open = false → transport 0 = .ok r →
      1 ≤ rcfg.max_attempts →
      send_command_with_retry rcfg cfg now transport st =
        ⟨some r, 1, record_success st⟩) ∧
    (st.circuit_breaker_open = false → (∀ j, transport j = .exn) →
      send_command_with_retry rcfg cfg now transport st =
        ⟨none, rcfg.max_attempts, record_failure cfg now st⟩) ∧
    (1 ≤ n → n ≤ num → n ∈ conf →
      (set_relay_state addr num conf persist net states n v).1 =
        .ok (net (send_relay_states_frame addr num
          (states.set (n - 1) v))).isSome) := by
  refine ⟨send_closed_first_ok rcfg cfg now transport st r,
    send_closed_all_exn rcfg cfg now transport st, fun h1 h2 h3 => ?_⟩
  simp only [set_relay_state]
  rw [if_neg (by omega), if_neg (by simp [h3])]

/-- Witness for C3's amended statement at concrete inputs: an always-empty
transport yields `some []` in one attempt; an always-raising transport
yields `none` after 3 attempts with a failure recorded; a valid
`set_relay_state` over a transport answering `some []` reports success. -/
theorem C3_empty_read_is_success_witness :
    send_command_with_retry {} {} 7 (fun _ => .ok []) initCMState =
      ⟨some [], 1, record_success initCMState⟩ ∧
    send_command_with_retry {} {} 7 (fun _ => .exn) initCMState =
      ⟨none, 3, record_failure {} 7 initCMState⟩ ∧
    (set_relay_state 1 8 [1] true (fun _ => some [])
      (List.replicate 8 false) 1 true).1 =
      .ok (some ([] : List Nat)).isSome :=
  ⟨(C3_empty_read_is_success {} {} 7 (fun _ => .ok []) initCMState []
      1 8 [1] true (fun _ => some []) (List.replicate 8 false) 1 true).1
      rfl rfl (by decide),
   (C3_empty_read_is_success {} {} 7 (fun _ => .exn) initCMState []
      1 8 [1] true (fun _ => some []) (List.replicate 8 false) 1 true).2.1
      rfl (fun _ => rfl),
   (C3_empty_read_is_success {} {} 7 (fun _ => .exn) initCMState []
      1 8 [1] true (fun _ => some []) (List.replicate 8 false) 1 true).2.2
      (by decide) (by decide) (by decide)⟩

/-- C6.  After five (the failure threshold) consecutive sends that exhaust
all retry attempts, the breaker is open and `connection_stats` reports it;
and any send issued while the breaker is open and strictly before the
recovery timeout has elapsed since the last recorded failure returns `None`
at once, performing zero attempts (no socket open, no I/O) and leaving the
state untouched. -/
theorem C6_circuit_breaker_fast_fail :
    (∀ t1 t2 t3 t4 t5 : Nat,
      connection_stats_circuit_breaker_open
        ((send_command_with_retry {} {} t5 (fun _ => .exn)
          ((send_command_with_retry {} {} t4 (fun _ => .exn)
            ((send_command_with_retry {} {} t3 (fun _ => .exn)
              ((send_command_with_retry {} {} t2 (fun _ => .exn)
                ((send_command_with_retry {} {} t1 (fun _ => .exn)
                  initCMState).state)).state)).state)).state)).state) = true) ∧
    (∀ (rcfg : RetryConfig) (cfg : CircuitBreakerConfig) (now : Nat)
      (transport : Nat → AttemptResult) (st : CMState),
      st.circuit_breaker_open = true →
      now < st.last_failure_time + cfg.recovery_timeout →
      send_command_with_retry rcfg cfg now transport st = ⟨none, 0, st⟩) := by
  constructor
  · intro t1 t2 t3 t4 t5
    have step : ∀ (t : Nat) (st : CMState),
        st.circuit_breaker_open = false →
        (send_command_with_retry {} {} t (fun _ => .exn) st).state =
          record_failure {} t st := by
      intro t st h
      rw [send_closed_all_exn {} {} t (fun _ => .exn) st h (fun _ => rfl)]
    have r1 : (send_command_with_retry {} {} t1 (fun _ => .exn)
        initCMState).state = ⟨1, t1, false, 0⟩ := by
      rw [step t1 initCMState rfl]; rfl
    have r2 : (send_command_with_retry {} {} t2 (fun _ => .exn)
        (⟨1, t1, false, 0⟩ : CMState)).state = ⟨2, t2, false, 0⟩ := by
      rw [step t2 _ rfl]; rfl
    have r3 : (send_command_with_retry {} {} t3 (fun _ => .exn)
        (⟨2, t2, false, 0⟩ : CMState)).state = ⟨3, t3, false, 0⟩ := by
      rw [step t3 _ rfl]; rfl
    have r4 : (send_command_with_retry {} {} t4 (fun _ => .exn)
        (⟨3, t3, false, 0⟩ : CMState)).state = ⟨4, t4, false, 0⟩ := by
      rw [step t4 _ rfl]; rfl
    have r5 : (send_command_with_retry {} {} t5 (fun _ => .exn)
        (⟨4, t4, false, 0⟩ : CMState)).state = ⟨5, t5, true, 0⟩ := by
      rw [step t5 _ rfl]; rfl
    rw [r1, r2, r3, r4, r5]
    rfl
  · intro rcfg cfg now transport st hopen hearly
    have hcond : ¬ (cfg.recovery_timeout < now - st.last_failure_time) := by
      omega
    have hcheck : is_circuit_breaker_open_check cfg now st = (true, st) := by
      simp only [is_circuit_breaker_open_check, hopen]
      simp [hcond]
    simp only [send_command_with_retry, hcheck]
    simp

/-- Witness for C6 at concrete inputs: five failing sends at times 1..5
open the breaker, and a send at time 20 (before 5 + 30) against the
resulting state `⟨5, 5, true, 0⟩` fails immediately with zero attempts. -/
theorem C6_circuit_breaker_fast_fail_witness :
    connection_stats_circuit_breaker_open
      ((send_command_with_retry {} {} 5 (fun _ => .exn)
        ((send_command_with_retry {} {} 4 (fun _ => .exn)
          ((send_command_with_retry {} {} 3 (fun _ => .exn)
            ((send_command_with_retry {} {} 2 (fun _ => .exn)
              ((send_command_with_retry {} {} 1 (fun _ => .exn)
                initCMState).state)).state)).state)).state)).state) = true ∧
    send_command_with_retry {} {} 20 (fun _ => .ok [0x01]) ⟨5, 5, true, 0⟩ =
      ⟨none, 0, ⟨5, 5, true, 0⟩⟩ :=
  ⟨C6_circuit_breaker_fast_fail.1 1 2 3 4 5,
   C6_circuit_breaker_fast_fail.2 {} {} 20 (fun _ => .ok [0x01])
     ⟨5, 5, true, 0⟩ rfl (by decide)⟩

/-! ## Persistence round trip (C8) -/

/-- Loading a file whose entries are `(a, states[a-1])` for keys `a` drawn
from configured in-range relays writes exactly those positions of the
target vector, with the vector's own values. -/
lemma load_keyed_entries_getD (conf : List Nat) (num : Nat)
    (states : List Bool) :
    ∀ (keys : List Nat) (s : List Bool), s.length = num →
    (∀ a ∈ keys, a ∈ conf ∧ 1 ≤ a ∧ a ≤ num) →
    ∀ i, i < num →
    (load_last_states conf num
        (keys.map (fun a => (a, states.getD (a - 1) false))) s).getD i false =
      if i + 1 ∈ keys then states.getD i false else s.getD i false := by
  intro keys
  induction keys with
  | nil =>
    intro s _ _ i _
    simp [load_last_states]
  | cons a rest ih =>
    intro s hs hmem i hi
    obtain ⟨ha_conf, ha1, ha2⟩ := hmem a (List.mem_cons_self a rest)
    have happ : apply_saved_state conf num s (a, states.getD (a - 1) false) =
        s.set (a - 1) (states.getD (a - 1) false) := by
      simp [apply_saved_state, ha_conf, ha1, ha2]
    have hload : load_last_states conf num
        ((a :: rest).map (fun b => (b, states.getD (b - 1) false))) s =
        load_last_states conf num
          (rest.map (fun b => (b, states.getD (b - 1) false)))
          (s.set (a - 1) (states.getD (a - 1) false)) := by
      simp only [List.map_cons, load_last_states, List.foldl_cons, happ]
    rw [hload,
      ih _ (by simp [hs]) (fun b hb => hmem b (List.mem_cons_of_mem a hb)) i hi]
    by_cases hrest : i + 1 ∈ rest
    · simp [hrest]
    · by_cases hai : a = i + 1
      · have hidx : a - 1 = i := by omega
        have hilen : i < s.length := by omega
        rw [if_neg hrest, if_pos (by simp [hai])]
        subst hidx
        simp [List.getD_eq_getElem?_getD, List.getElem?_set_self hilen]
      · have hidx : a - 1 ≠ i := by omega
        rw [if_neg hrest, if_neg (by simp [hrest]; omega)]
        simp [List.getD_eq_getElem?_getD, List.getElem?_set_ne hidx]

/-- C8.  Persistence round trip: saving and then loading on a fresh
all-off vector of the same length restores the saved value of every
configured in-range relay; the file on disk holds exactly string-rendered
configured relay numbers mapped to the vector's booleans; and loading any
file never touches a position whose relay number is not configured. -/
theorem C8_persistence_round_trip (conf : List Nat) (num : Nat)
    (states : List Bool) :
    (∀ r, r ∈ conf → 1 ≤ r → r ≤ num →
      (load_last_states conf num (save_last_states conf num states)
          (List.replicate num false)).getD (r - 1) false =
        states.getD (r - 1) false) ∧
    (∀ kv ∈ save_last_states_file conf num states,
      ∃ a, a ∈ conf ∧ 1 ≤ a ∧ a ≤ num ∧ kv.1 = toString a ∧
        kv.2 = states.getD (a - 1) false) ∧
    (∀ (saved : List (Nat × Bool)) (s : List Bool) (i : Nat),
      i + 1 ∉ conf →
      (load_last_states conf num saved s).getD i false = s.getD i false) := by
  refine ⟨fun r hr h1 h2 => ?_, fun kv hkv => ?_, fun saved => ?_⟩
  · have haux := load_keyed_entries_getD conf num states
      (conf.filter (fun r => decide (1 ≤ r) && decide (r ≤ num)))
      (List.replicate num false) (by simp)
      (fun a ha => by
        rw [List.mem_filter] at ha
        have hcond := ha.2
        simp only [Bool.and_eq_true_iff, decide_eq_true_eq] at hcond
        exact ⟨ha.1, hcond.1, hcond.2⟩)
      (r - 1) (by omega)
    have hr_mem : r ∈ conf.filter (fun r => decide (1 ≤ r) && decide (r ≤ num)) := by
      rw [List.mem_filter]
      exact ⟨hr, by simp [h1, h2]⟩
    have hr1 : r - 1 + 1 = r := by omega
    rw [save_last_states] at *
    rw [haux, hr1, if_pos hr_mem]
  · simp only [save_last_states_file] at hkv
    obtain ⟨p, hp, rfl⟩ := List.mem_map.mp hkv
    simp only [save_last_states] at hp
    obtain ⟨a, ha, rfl⟩ := List.mem_map.mp hp
    rw [List.mem_filter] at ha
    have hcond := ha.2
    simp only [Bool.and_eq_true_iff, decide_eq_true_eq] at hcond
    exact ⟨a, ha.1, hcond.1, hcond.2, rfl, rfl⟩
  · induction saved with
    | nil => intro s i _; rfl
    | cons e rest ih =>
      intro s i hout
      have hstep : apply_saved_state conf num s e = s ∨
          (e.1 ∈ conf ∧ 1 ≤ e.1 ∧
            apply_saved_state conf num s e = s.set (e.1 - 1) e.2) := by
        simp only [apply_saved_state]
        split
        · next h => exact Or.inr ⟨h.1, h.2.1, rfl⟩
        · exact Or.inl rfl
      have : (load_last_states conf num (e :: rest) s).getD i false =
          (apply_saved_state conf num s e).getD i false := by
        simp only [load_last_states, List.foldl_cons]
        exact ih (apply_saved_state conf num s e) i hout
      rw [this]
      rcases hstep with h | ⟨hmem, h1, h⟩
      · rw [h]
      · have hne : e.1 - 1 ≠ i := by
          intro hc
          apply hout
          have he : e.1 = i + 1 := by omega
          rwa [he] at hmem
        rw [h]
        simp [List.getD_eq_getElem?_getD, List.getElem?_set_ne hne]

/-- Witness for C8 at concrete inputs: configured relays `{1, 3}` of 8,
vector `[on, off, on, on, off, off, off, off]`: the round trip restores
relay 3; the file entry `("1", true)` names a configured relay as a string;
loading an entry for unconfigured relay 2 leaves the fresh vector's
position 1 untouched. -/
theorem C8_persistence_round_trip_witness :
    (load_last_states [1, 3] 8
        (save_last_states [1, 3] 8
          [true, false, true, true, false, false, false, false])
        (List.replicate 8 false)).getD (3 - 1) false =
      [true, false, true, true, false, false, false, false].getD (3 - 1) false ∧
    (∃ a, a ∈ [1, 3] ∧ 1 ≤ a ∧ a ≤ 8 ∧
      ((("1" : String), true) : String × Bool).1 = toString a ∧
      ((("1" : String), true) : String × Bool).2 =
        [true, false, true, true, false, false, false, false].getD (a - 1) false) ∧
    (load_last_states [1, 3] 8 [(2, true)]
        (List.replicate 8 false)).getD 1 false =
      (List.replicate 8 false).getD 1 false :=
  ⟨(C8_persistence_round_trip [1, 3] 8
      [true, false, true, true, false, false, false, false]).1 3
      (by decide) (by decide) (by decide),
   (C8_persistence_round_trip [1, 3] 8
      [true, false, true, true, false, false, false, false]).2.1
      (⟨"1", true⟩ : String × Bool) (by decide),
   (C8_persistence_round_trip [1, 3] 8
      [true, false, true, true, false, false, false, false]).2.2
      [(2, true)] (List.replicate 8 false) 1 (by decide)⟩

end WaveshareRelay
